import Mathlib

/-!
Verification of the UrjaRakshak frontend API client and dashboard status
aggregator.

Embedded source files:
* `frontend/src/lib/api.ts` (typed client: `health`, `getPhysicsInfo`,
  `analyzeGrid`, `getApiUrl`, and the module-level `API_URL` constant),
* the untyped variant of `lib/api.ts` present in the duplicate source tree
  (a `health` / `analyzeGrid` client that never inspects `res.ok`),
* the `Dashboard` page component (`useState` hooks plus the mount-time
  `useEffect` that joins `api.health()` and `api.getPhysicsInfo()` with
  `Promise.all`).

Modelling conventions:
* JSON values are a mutual inductive family (`Json` / `JsonArr` / `JsonObj`)
  so that every recursion is structural and every definition computes in the
  kernel.  JSON numbers are modelled as integers; no claim depends on
  fractional values.
* An HTTP response carries a status code and an `Option Json` body, where
  `none` models body text that `JSON.parse` rejects; `Response.json` models
  `res.json()` accordingly.
* JavaScript runtime behaviour that the code relies on is modelled
  explicitly: truthiness (`Json.truthy`, used by the `||` fallbacks),
  `String(v)` conversion (`Json.jsString`, used by the `Error` constructor),
  property access on a parsed JSON value (`jsGetDetail`, including the
  `TypeError` thrown when the value is `null`), and `JSON.stringify`
  (`Json.stringify`; control characters other than `\n`, `\t`, `\r` are not
  modelled, no claim mentions them).
* Each client operation returns the list of HTTP requests it issues together
  with its outcome (`Except JsError Json`), as a function of the transport
  response.  The model is pure, so purity claims about accessors hold by
  construction.
-/

mutual

/-- JSON values as parsed by `res.json()` and serialised by
`JSON.stringify`.  Arrays and objects use the dedicated list types below so
that all recursions are structural. -/
inductive Json where
  | null : Json
  | bool (b : Bool) : Json
  | num (n : Int) : Json
  | str (s : String) : Json
  | arr (elems : JsonArr) : Json
  | obj (fields : JsonObj) : Json

/-- A JSON array: a list of JSON values. -/
inductive JsonArr where
  | nil : JsonArr
  | cons (hd : Json) (tl : JsonArr) : JsonArr

/-- A JSON object: an ordered list of key/value fields (insertion order, as
`JSON.stringify` and `JSON.parse` preserve it). -/
inductive JsonObj where
  | nil : JsonObj
  | cons (key : String) (val : Json) (tl : JsonObj) : JsonObj

end

deriving instance DecidableEq for Json, JsonArr, JsonObj

/-- JavaScript truthiness of a JSON value: `null`, `false`, `0` and the
empty string are falsy; every array and object is truthy.  This is what the
`x || y` fallbacks in the source evaluate. -/
def Json.truthy : Json → Bool
  | .null => false
  | .bool b => b
  | .num n => n != 0
  | .str s => s != ""
  | .arr _ => true
  | .obj _ => true

mutual

/-- JavaScript `String(v)` conversion of a JSON value, as performed by the
`Error` constructor on a non-string argument: `null ↦ "null"`, booleans and
numbers print themselves, arrays join their elements with `","` (with `null`
elements printing as the empty string), objects print `[object Object]`. -/
def Json.jsString : Json → String
  | .null => "null"
  | .bool b => cond b "true" "false"
  | .num n => toString n
  | .str s => s
  | .arr es => es.jsJoin
  | .obj _ => "[object Object]"

/-- `Array.prototype.toString` body: elements converted by `String(·)` and
joined with `","`, except that a `null` element contributes the empty
string. -/
def JsonArr.jsJoin : JsonArr → String
  | .nil => ""
  | .cons .null .nil => ""
  | .cons hd .nil => hd.jsString
  | .cons .null tl => "," ++ tl.jsJoin
  | .cons hd tl => hd.jsString ++ "," ++ tl.jsJoin

end

/-- `JSON.stringify` escaping for one character of a string literal.
Backslash and double quote are escaped, as are the common control
characters `\n`, `\t`, `\r`. -/
def jsonEscapeChar (c : Char) : String :=
  if c = '"' then "\\\""
  else if c = '\\' then "\\\\"
  else if c = '\n' then "\\n"
  else if c = '\t' then "\\t"
  else if c = '\r' then "\\r"
  else String.singleton c

/-- `JSON.stringify` escaping of a whole string. -/
def jsonEscape (s : String) : String :=
  String.join (s.toList.map jsonEscapeChar)

mutual

/-- `JSON.stringify` of a JSON value. -/
def Json.stringify : Json → String
  | .null => "null"
  | .bool b => cond b "true" "false"
  | .num n => toString n
  | .str s => "\"" ++ jsonEscape s ++ "\""
  | .arr es => "[" ++ es.stringifyElems ++ "]"
  | .obj fs => "\x7b" ++ fs.stringifyFields ++ "\x7d"

/-- Serialised, comma-separated array elements. -/
def JsonArr.stringifyElems : JsonArr → String
  | .nil => ""
  | .cons hd .nil => hd.stringify
  | .cons hd tl => hd.stringify ++ "," ++ tl.stringifyElems

/-- Serialised, comma-separated object fields (`"key":value`). -/
def JsonObj.stringifyFields : JsonObj → String
  | .nil => ""
  | .cons k v .nil => "\"" ++ jsonEscape k ++ "\":" ++ v.stringify
  | .cons k v tl =>
      "\"" ++ jsonEscape k ++ "\":" ++ v.stringify ++ "," ++ tl.stringifyFields

end

/-- Property lookup on a JSON object (`obj.key` on a parsed value). -/
def JsonObj.get : JsonObj → String → Option Json
  | .nil, _ => none
  | .cons k v tl, key => if k = key then some v else tl.get key

/-- The ways a client operation can reject: a `throw new Error(message)`
from the source, the `SyntaxError` raised by `res.json()` on a body that is
not valid JSON, or the `TypeError` raised by reading `.detail` of `null`. -/
inductive JsError where
  | err (message : String)
  | jsonParse
  | nullDetail
deriving DecidableEq

/-- The `message` property that the dashboard reads from a caught error
(`err.message`).  The messages of the two browser-generated errors are
modelled by fixed representative strings; no claim depends on their exact
text. -/
def JsError.message : JsError → String
  | .err m => m
  | .jsonParse => "Unexpected token in JSON"
  | .nullDetail => "Cannot read properties of null"

/-- An HTTP response as observed by the client: status code plus body.
`body = none` models body text that is not valid JSON. -/
structure Response where
  status : Nat
  body : Option Json
deriving DecidableEq

/-- `res.ok`: true exactly when the status is in the 2xx success range. -/
def Response.ok (r : Response) : Bool :=
  200 ≤ r.status && r.status ≤ 299

/-- `res.json()`: resolves with the parsed body, rejects with a
`SyntaxError` when the body is not valid JSON. -/
def Response.json (r : Response) : Except JsError Json :=
  match r.body with
  | some j => .ok j
  | none => .error .jsonParse

/-- One HTTP request issued through `fetch`. -/
structure HttpRequest where
  method : String
  url : String
  body : Option String
deriving DecidableEq

/-- `const API_URL = process.env.NEXT_PUBLIC_API_URL || "http://localhost:8000"`:
the module-level base URL, resolved once from the environment variable
(`none` = variable unset).  Note `||` falls back whenever the variable is
falsy, which for strings includes the empty string. -/
def API_URL (env : Option String) : String :=
  match env with
  | some s => if s = "" then "http://localhost:8000" else s
  | none => "http://localhost:8000"

namespace api

/-- `api.health()` from the typed client: GET `<base>/health`; throws the
fixed `Error("Health check failed")` when `!res.ok`, otherwise returns
`res.json()`.  The first component lists the requests issued. -/
def health (env : Option String) (res : Response) :
    List HttpRequest × Except JsError Json :=
  ([⟨"GET", API_URL env ++ "/health", none⟩],
   if res.ok then res.json else .error (.err "Health check failed"))

/-- `api.getPhysicsInfo()` from the typed client: GET
`<base>/api/v1/physics/info`; throws the fixed
`Error("Failed to fetch physics info")` when `!res.ok`, otherwise returns
`res.json()`. -/
def getPhysicsInfo (env : Option String) (res : Response) :
    List HttpRequest × Except JsError Json :=
  ([⟨"GET", API_URL env ++ "/api/v1/physics/info", none⟩],
   if res.ok then res.json else .error (.err "Failed to fetch physics info"))

/-- One entry of `AnalysisRequest.components`.  The two optional fields are
omitted from the serialised JSON when absent, as `JSON.stringify` drops
`undefined` properties. -/
structure ComponentSpec where
  component_id : String
  component_type : String
  rated_capacity_kva : Int
  efficiency_rating : Option Int
  age_years : Option Int
deriving DecidableEq

/-- Append an optional numeric field to an object (present fields keep the
declaration order of the interface; an absent field is omitted, as
`JSON.stringify` omits `undefined` properties). -/
def optNumField (k : String) (v : Option Int) (rest : JsonObj) : JsonObj :=
  match v with
  | some n => .cons k (.num n) rest
  | none => rest

/-- The JSON object a `ComponentSpec` value denotes (property insertion
order = interface declaration order). -/
def ComponentSpec.toJson (c : ComponentSpec) : Json :=
  .obj (.cons "component_id" (.str c.component_id)
    (.cons "component_type" (.str c.component_type)
      (.cons "rated_capacity_kva" (.num c.rated_capacity_kva)
        (optNumField "efficiency_rating" c.efficiency_rating
          (optNumField "age_years" c.age_years .nil)))))

/-- The `AnalysisRequest` interface of the typed client. -/
structure AnalysisRequest where
  substation_id : String
  input_energy_mwh : Int
  output_energy_mwh : Int
  components : List ComponentSpec
deriving DecidableEq

/-- The JSON array the `components` field denotes. -/
def componentsToJsonArr : List ComponentSpec → JsonArr
  | [] => .nil
  | c :: cs => .cons c.toJson (componentsToJsonArr cs)

/-- The JSON object an `AnalysisRequest` value denotes. -/
def AnalysisRequest.toJson (r : AnalysisRequest) : Json :=
  .obj (.cons "substation_id" (.str r.substation_id)
    (.cons "input_energy_mwh" (.num r.input_energy_mwh)
      (.cons "output_energy_mwh" (.num r.output_energy_mwh)
        (.cons "components" (.arr (componentsToJsonArr r.components)) .nil))))

/-- `error.detail` on the parsed error body: reading a property of `null`
throws a `TypeError`; on an object it is the field lookup; on any other
value it is `undefined` (modelled as `none`). -/
def jsGetDetail : Json → Except JsError (Option Json)
  | .null => .error .nullDetail
  | .obj fs => .ok (fs.get "detail")
  | _ => .ok none

/-- The message of `new Error(error.detail || "Analysis failed")`: the
`String(·)` conversion of `detail` when that value is truthy, the fixed
fallback when `detail` is absent (`undefined`) or falsy. -/
def detailMessage (d : Option Json) : String :=
  match d with
  | some v => if v.truthy then v.jsString else "Analysis failed"
  | none => "Analysis failed"

/-- `api.analyzeGrid(data)` from the typed client: one POST to
`<base>/api/v1/analysis/validate` whose body is `JSON.stringify(data)`.
On `res.ok` it returns `res.json()`.  Otherwise it awaits `res.json()`
(its parse failure propagates), reads `error.detail` (a `TypeError` on a
`null` body propagates) and throws
`new Error(error.detail || "Analysis failed")`. -/
def analyzeGrid (env : Option String) (data : AnalysisRequest) (res : Response) :
    List HttpRequest × Except JsError Json :=
  ([⟨"POST", API_URL env ++ "/api/v1/analysis/validate",
      some data.toJson.stringify⟩],
   if res.ok then res.json
   else
     match res.json with
     | .error e => .error e
     | .ok j =>
       match jsGetDetail j with
       | .error e => .error e
       | .ok d => .error (.err (detailMessage d)))

/-- `api.getApiUrl()` from the typed client: returns the module-level
`API_URL`. -/
def getApiUrl (env : Option String) : String :=
  API_URL env

end api

namespace untypedApi

/-- `api.health()` from the untyped client variant: GET `<base>/health` and
return `res.json()` directly — the response status is never inspected. -/
def health (env : Option String) (res : Response) :
    List HttpRequest × Except JsError Json :=
  ([⟨"GET", API_URL env ++ "/health", none⟩], res.json)

/-- `api.analyzeGrid(data)` from the untyped client variant: one POST, body
`JSON.stringify(data)` (here `data : Json` since the parameter is `any`),
and `res.json()` returned without any status check. -/
def analyzeGrid (env : Option String) (data : Json) (res : Response) :
    List HttpRequest × Except JsError Json :=
  ([⟨"POST", API_URL env ++ "/api/v1/analysis/validate",
      some data.stringify⟩], res.json)

end untypedApi

/-- Which of the two concurrently issued requests settles first.  This is
the only channel through which network timing can influence the dashboard:
`Promise.all` rejects with the reason of the first promise to reject. -/
inductive ArrivalOrder where
  | healthFirst
  | physicsFirst
deriving DecidableEq

/-- `Promise.all([health, physics])`: fulfils with the positional pair when
both promises fulfil (independently of arrival order), and otherwise
rejects with the reason of the first rejection to occur — when both reject,
the one that settles first in time. -/
def promiseAll (h p : Except JsError Json) (order : ArrivalOrder) :
    Except JsError (Json × Json) :=
  match h, p with
  | .ok hv, .ok pv => .ok (hv, pv)
  | .error e, .ok _ => .error e
  | .ok _, .error e => .error e
  | .error eh, .error ep =>
      .error (match order with | .healthFirst => eh | .physicsFirst => ep)

/-- The reason of the first-observed rejection among the two outcomes
(`none` when both fulfil).  This is exactly what `Promise.all` rejects
with. -/
def firstRejection (h p : Except JsError Json) (order : ArrivalOrder) :
    Option JsError :=
  match h, p with
  | .ok _, .ok _ => none
  | .error e, .ok _ => some e
  | .ok _, .error e => some e
  | .error eh, .error ep =>
      some (match order with | .healthFirst => eh | .physicsFirst => ep)

/-- The `Dashboard` component state: the four `useState` hooks
(`health`, `physics`, `loading`, `error`). -/
structure DashboardState where
  health : Option Json
  physics : Option Json
  loading : Bool
  error : Option String
deriving DecidableEq

/-- The initial hook values on mount:
`useState(null), useState(null), useState(true), useState(null)`. -/
def initialState : DashboardState :=
  ⟨none, none, true, none⟩

/-- The state trajectory of one poll cycle, as the sequence of component
states after each state update.  It models the mount-time effect

`Promise.all([api.health(), api.getPhysicsInfo()])
   .then(([h, p]) => (setHealth(h); setPhysics(p)))
   .catch((err) => setError(err.message))
   .finally(() => setLoading(false))`

for given outcomes of the two calls and a given arrival order.  The effect
has an empty dependency array, so exactly one such cycle runs per mount;
nothing in the component re-triggers it. -/
def pollTrace (h p : Except JsError Json) (order : ArrivalOrder) :
    List DashboardState :=
  match promiseAll h p order with
  | .ok (hv, pv) =>
      [initialState,
       { initialState with health := some hv },
       { initialState with health := some hv, physics := some pv },
       { initialState with health := some hv, physics := some pv,
                           loading := false }]
  | .error e =>
      [initialState,
       { initialState with error := some e.message },
       { initialState with error := some e.message, loading := false }]

/-- What the dashboard renders: the spinner, the single error panel
(carrying the propagated message), or the dashboard view with whatever
payloads are attached (the markup guards each data panel with
`health && ...` / `physics && ...`). -/
inductive ViewState where
  | loading
  | ready (health physics : Option Json)
  | errorView (message : String)
deriving DecidableEq

/-- The render function of the `Dashboard` component, mirroring its early
returns: `if (loading) return spinner; if (error) return error panel;
return dashboard`. -/
def render (s : DashboardState) : ViewState :=
  if s.loading then .loading
  else
    match s.error with
    | some m => .errorView m
    | none => .ready s.health s.physics

/-- The rendered view is the loading spinner. -/
def ViewState.isLoading : ViewState → Bool
  | .loading => true
  | _ => false

/-- The rendered view is the dashboard (Ready) view. -/
def ViewState.isReady : ViewState → Bool
  | .ready _ _ => true
  | _ => false

/-- The rendered view is the error panel. -/
def ViewState.isError : ViewState → Bool
  | .errorView _ => true
  | _ => false

/-- Exactly one of the three view predicates holds. -/
def exactlyOneView (v : ViewState) : Prop :=
  (v.isLoading = true ∧ v.isReady = false ∧ v.isError = false)
  ∨ (v.isLoading = false ∧ v.isReady = true ∧ v.isError = false)
  ∨ (v.isLoading = false ∧ v.isReady = false ∧ v.isError = true)

/-- Every view satisfies exactly one of the three predicates: the render
if/else chain returns one of three mutually exclusive views. -/
theorem exactlyOneView_holds (v : ViewState) : exactlyOneView v := by
  cases v <;> simp [exactlyOneView, ViewState.isLoading, ViewState.isReady,
    ViewState.isError]

/-- A concrete `AnalysisRequest`, used to instantiate witnesses. -/
def sampleRequest : api.AnalysisRequest :=
  ⟨"SS-001", 1000, 950, [⟨"T1", "transformer", 500, some 1, none⟩]⟩

/-- Claim C1 (amended): for every HTTP response, the typed client
operations `health()` and `getPhysicsInfo()` reject with their fixed
operation-specific messages exactly when the response status is outside the
2xx range — the body is never inspected on that path, as the statement
quantifies over arbitrary bodies — and on a 2xx status each behaves as
`res.json()`, resolving with the parsed JSON body.  The untyped client
variant of `health()`, however, never inspects the status at all: it
resolves with the parsed body even on a non-2xx response. -/
theorem health_and_physicsInfo_error_contract
    (env : Option String) (res : Response) :
    (((api.health env res).2 = .error (.err "Health check failed"))
        ↔ res.ok = false)
  ∧ (res.ok = true → (api.health env res).2 = res.json)
  ∧ (res.ok = true → ∀ j, res.body = some j → (api.health env res).2 = .ok j)
  ∧ (((api.getPhysicsInfo env res).2
        = .error (.err "Failed to fetch physics info")) ↔ res.ok = false)
  ∧ (res.ok = true → (api.getPhysicsInfo env res).2 = res.json)
  ∧ (res.ok = true → ∀ j, res.body = some j →
      (api.getPhysicsInfo env res).2 = .ok j)
  ∧ (∀ j, res.body = some j → (untypedApi.health env res).2 = .ok j) := by
  obtain ⟨status, body⟩ := res
  cases hok : Response.ok ⟨status, body⟩ <;> cases body <;>
    simp [api.health, api.getPhysicsInfo, untypedApi.health, Response.json,
      hok]

/-- Witness for C1: a 503 response makes the typed `health()` reject with
the fixed message. -/
theorem health_and_physicsInfo_error_contract_witness :
    (api.health none ⟨503, some (Json.obj .nil)⟩).2
      = .error (.err "Health check failed") :=
  (health_and_physicsInfo_error_contract none
    ⟨503, some (Json.obj .nil)⟩).1.mpr (by decide)

/-- Counterexample for C1 as frozen: the untyped client variant of
`health()` resolves with the parsed body on a 503 response instead of
rejecting with the fixed message. -/
theorem untyped_health_resolves_on_503 :
    (untypedApi.health none ⟨503, some (Json.obj .nil)⟩).2
        = .ok (Json.obj .nil)
  ∧ (untypedApi.health none ⟨503, some (Json.obj .nil)⟩).2
        ≠ .error (.err "Health check failed") :=
  ⟨rfl, fun h => nomatch h⟩

/-- Claim C5: `analyzeGrid` issues exactly one POST request, to
`<base>/api/v1/analysis/validate`, whose body is `JSON.stringify` of the
input request — for every input (no local validation filters any request
out) and independently of the response.  The serialisation adds and removes
nothing: the second conjunct exhibits it field-for-field on a concrete
request (note `sampleRequest` has `age_years := none`, which is absent from
the serialised body, exactly as `JSON.stringify` drops `undefined`). -/
theorem analyzeGrid_single_post_exact_body
    (env : Option String) (req : api.AnalysisRequest) (res : Response) :
    (api.analyzeGrid env req res).1
      = [⟨"POST", API_URL env ++ "/api/v1/analysis/validate",
          some (api.AnalysisRequest.toJson req).stringify⟩]
  ∧ (api.analyzeGrid env sampleRequest res).1.map HttpRequest.body
      = [some "\x7b\"substation_id\":\"SS-001\",\"input_energy_mwh\":1000,\"output_energy_mwh\":950,\"components\":[\x7b\"component_id\":\"T1\",\"component_type\":\"transformer\",\"rated_capacity_kva\":500,\"efficiency_rating\":1\x7d]\x7d"] :=
  ⟨rfl, rfl⟩

/-- Claim C7 (amended): the base URL resolves to the environment override
when that override is present and non-empty, and to the fixed default when
the variable is unset or set to the empty string (the `||` fallback fires
on any falsy value, including `""`).  `getApiUrl()` returns exactly the
resolved value — it is a pure function in this model, so repeated calls are
identical by construction — and every operation prefixes its path with the
resolved value. -/
theorem apiUrl_resolution_and_prefixing
    (env : Option String) (res : Response) (req : api.AnalysisRequest) :
    (∀ s, env = some s → s ≠ "" → API_URL env = s)
  ∧ (env = none → API_URL env = "http://localhost:8000")
  ∧ (env = some "" → API_URL env = "http://localhost:8000")
  ∧ (api.getApiUrl env = API_URL env)
  ∧ ((api.health env res).1.map HttpRequest.url = [API_URL env ++ "/health"])
  ∧ ((api.getPhysicsInfo env res).1.map HttpRequest.url
      = [API_URL env ++ "/api/v1/physics/info"])
  ∧ ((api.analyzeGrid env req res).1.map HttpRequest.url
      = [API_URL env ++ "/api/v1/analysis/validate"]) := by
  refine ⟨?_, ?_, ?_, rfl, by simp [api.health], by simp [api.getPhysicsInfo],
    by simp [api.analyzeGrid]⟩
  · intro s hs hne
    subst hs
    simp [API_URL, hne]
  · intro hs
    subst hs
    rfl
  · intro hs
    subst hs
    rfl

/-- Witness for C7: a non-empty override is returned as-is. -/
theorem apiUrl_resolution_and_prefixing_witness :
    API_URL (some "https://api.example.com") = "https://api.example.com" :=
  (apiUrl_resolution_and_prefixing (some "https://api.example.com")
    ⟨200, none⟩ sampleRequest).1 _ rfl (by decide)

/-- Counterexample for C7 as frozen: an environment override that is
present but empty is not used; the resolution falls back to the default,
so the base URL is not "the environment-provided override when present". -/
theorem apiUrl_empty_override_counterexample :
    API_URL (some "") = "http://localhost:8000"
  ∧ "http://localhost:8000" ≠ "" :=
  ⟨rfl, by decide⟩

/-- Claim C10: on a 2xx response, every typed operation resolves with the
parsed JSON body exactly as received — the statement holds for an arbitrary
body `j`, whether or not it conforms to the declared `HealthResponse` /
`PhysicsInfo` shapes, so no runtime validation of success bodies exists. -/
theorem success_body_not_validated
    (env : Option String) (req : api.AnalysisRequest) (res : Response)
    (j : Json) (hok : res.ok = true) (hbody : res.body = some j) :
    (api.health env res).2 = .ok j
  ∧ (api.getPhysicsInfo env res).2 = .ok j
  ∧ (api.analyzeGrid env req res).2 = .ok j := by
  simp [api.health, api.getPhysicsInfo, api.analyzeGrid, hok, Response.json,
    hbody]

/-- Witness for C10: a 2xx response whose body is the bare number 42 —
which matches neither declared response shape — is resolved as-is by all
three operations. -/
theorem success_body_not_validated_witness :
    (api.health none ⟨200, some (Json.num 42)⟩).2 = .ok (Json.num 42)
  ∧ (api.getPhysicsInfo none ⟨200, some (Json.num 42)⟩).2 = .ok (Json.num 42)
  ∧ (api.analyzeGrid none sampleRequest ⟨200, some (Json.num 42)⟩).2
      = .ok (Json.num 42) :=
  success_body_not_validated none sampleRequest ⟨200, some (Json.num 42)⟩
    (Json.num 42) (by decide) rfl

/-- Claim C4 (amended): on a 2xx response `analyzeGrid` behaves as
`res.json()`; on a non-2xx response it parses the body as JSON and throws
`new Error(error.detail || "Analysis failed")`: when the parsed body is an
object whose `detail` field is present, the rejection message is the
`String(·)` conversion of that value if it is truthy and the fixed fallback
if it is falsy (for example the empty string); when `detail` is absent the
fallback is used; when the body is JSON `null`, reading `.detail` throws a
`TypeError`, which is what the caller observes; a body that is not valid
JSON surfaces the parse failure. -/
theorem analyzeGrid_error_message_contract
    (env : Option String) (req : api.AnalysisRequest) (res : Response) :
    (res.ok = true → (api.analyzeGrid env req res).2 = res.json)
  ∧ (res.ok = false → res.body = none →
      (api.analyzeGrid env req res).2 = .error .jsonParse)
  ∧ (res.ok = false → ∀ fs d, res.body = some (.obj fs) →
      fs.get "detail" = some d →
      (api.analyzeGrid env req res).2
        = .error (.err (if d.truthy then d.jsString else "Analysis failed")))
  ∧ (res.ok = false → ∀ fs, res.body = some (.obj fs) →
      fs.get "detail" = none →
      (api.analyzeGrid env req res).2 = .error (.err "Analysis failed"))
  ∧ (res.ok = false → res.body = some .null →
      (api.analyzeGrid env req res).2 = .error .nullDetail) := by
  obtain ⟨status, body⟩ := res
  refine ⟨?_, ?_, ?_, ?_, ?_⟩
  · intro hok
    simp [api.analyzeGrid, hok]
  · intro hok hbody
    subst hbody
    simp [api.analyzeGrid, hok, Response.json]
  · intro hok fs d hbody hd
    subst hbody
    simp [api.analyzeGrid, hok, Response.json, api.jsGetDetail, hd,
      api.detailMessage]
  · intro hok fs hbody hd
    subst hbody
    simp [api.analyzeGrid, hok, Response.json, api.jsGetDetail, hd,
      api.detailMessage]
  · intro hok hbody
    subst hbody
    simp [api.analyzeGrid, hok, Response.json, api.jsGetDetail]

/-- Witness for C4: the spec scenario — HTTP 422 with body
`\x7b"detail":"input_energy_mwh must be positive"\x7d` rejects with exactly
that detail text. -/
theorem analyzeGrid_error_message_contract_witness :
    (api.analyzeGrid none sampleRequest
        ⟨422, some (.obj (.cons "detail"
          (.str "input_energy_mwh must be positive") .nil))⟩).2
      = .error (.err "input_energy_mwh must be positive") :=
  (analyzeGrid_error_message_contract none sampleRequest
      ⟨422, some (.obj (.cons "detail"
        (.str "input_energy_mwh must be positive") .nil))⟩).2.2.1
    (by decide) (.cons "detail" (.str "input_energy_mwh must be positive") .nil)
    (.str "input_energy_mwh must be positive") rfl rfl

/-- Counterexample for C4 as frozen: a non-2xx body whose `detail` field is
present but holds the empty string is not propagated verbatim — the `||`
fallback fires on the falsy value and the rejection carries the fixed
fallback message instead of the present (empty) detail. -/
theorem analyzeGrid_empty_detail_falls_back :
    (api.analyzeGrid none sampleRequest
        ⟨422, some (.obj (.cons "detail" (.str "") .nil))⟩).2
      = .error (.err "Analysis failed")
  ∧ (JsonObj.cons "detail" (.str "") .nil).get "detail" = some (.str "")
  ∧ "Analysis failed" ≠ "" :=
  ⟨rfl, rfl, by decide⟩

/-- Claim C9 (amended): a non-2xx response whose body is not valid JSON
makes `analyzeGrid` reject with the JSON-parse failure itself — which is
never the fixed fallback error nor any `Error`-constructed message — and a
rejection carrying the fixed fallback message can only arise from a body
that did parse as JSON. -/
theorem analyzeGrid_parse_failure_surfaced
    (env : Option String) (req : api.AnalysisRequest) (res : Response)
    (hok : res.ok = false) (hbody : res.body = none) :
    (api.analyzeGrid env req res).2 = .error .jsonParse
  ∧ (∀ m, (JsError.jsonParse : JsError) ≠ .err m)
  ∧ (∀ r2 : Response,
      (api.analyzeGrid env req r2).2 = .error (.err "Analysis failed") →
      ∃ j, r2.body = some j) := by
  refine ⟨?_, ?_, ?_⟩
  · obtain ⟨status, body⟩ := res
    subst hbody
    simp [api.analyzeGrid, hok, Response.json]
  · intro m h
    exact nomatch h
  · intro r2 heq
    obtain ⟨status2, body2⟩ := r2
    cases body2 with
    | some j => exact ⟨j, rfl⟩
    | none =>
      exfalso
      revert heq
      cases h2 : Response.ok ⟨status2, none⟩ <;>
        simp [api.analyzeGrid, h2, Response.json]

/-- Witness for C9: a 500 response with a non-JSON body surfaces the parse
failure. -/
theorem analyzeGrid_parse_failure_surfaced_witness :
    (api.analyzeGrid none sampleRequest ⟨500, none⟩).2 = .error .jsonParse :=
  (analyzeGrid_parse_failure_surfaced none sampleRequest ⟨500, none⟩
    (by decide) rfl).1

/-- Counterexample for C9 as frozen: the fallback message is not reached
only when `detail` is lacking — here `detail` is present (with the falsy
value `0`) and the rejection still carries the fixed fallback message. -/
theorem analyzeGrid_fallback_with_present_falsy_detail :
    (api.analyzeGrid none sampleRequest
        ⟨422, some (.obj (.cons "detail" (.num 0) .nil))⟩).2
      = .error (.err "Analysis failed")
  ∧ (JsonObj.cons "detail" (.num 0) .nil).get "detail" = some (.num 0) :=
  ⟨rfl, rfl⟩

/-- The component state a successful poll cycle settles in: both payloads
attached, loading cleared by the `finally` handler, no error. -/
def readyState (hv pv : Json) : DashboardState :=
  { initialState with health := some hv, physics := some pv, loading := false }

/-- The component state a failed poll cycle settles in: the caught message
attached, loading cleared by the `finally` handler, no payloads. -/
def errorState (m : String) : DashboardState :=
  { initialState with error := some m, loading := false }

/-- Every poll cycle begins with the initial (Loading) component state. -/
theorem pollTrace_head (h p : Except JsError Json) (order : ArrivalOrder) :
    (pollTrace h p order).head? = some initialState := by
  rcases h with eh | hv <;> rcases p with ep | pv <;> cases order <;> rfl

/-- The final component state of a poll cycle, by the join outcome: both
payloads attached when `Promise.all` fulfils, the error message attached
when it rejects. -/
theorem pollTrace_getLast (h p : Except JsError Json) (order : ArrivalOrder) :
    (pollTrace h p order).getLast?
      = some (match promiseAll h p order with
        | .ok (hv, pv) => readyState hv pv
        | .error e => errorState (JsError.message e)) := by
  rcases h with eh | hv <;> rcases p with ep | pv <;> cases order <;> rfl

/-- Claim C2: each poll cycle starts in the Loading state on mount; the
cycle ends in the Ready state exactly when both `health()` and
`getPhysicsInfo()` resolve, and that Ready state carries both payloads; on
the all-success path no state of the cycle ever renders the Error view. -/
theorem aggregator_success_ready
    (h p : Except JsError Json) (order : ArrivalOrder) :
    ((pollTrace h p order).head?.map render = some .loading)
  ∧ (∀ hv pv, h = .ok hv → p = .ok pv →
      ((pollTrace h p order).getLast?.map render
          = some (.ready (some hv) (some pv))
        ∧ ∀ s ∈ pollTrace h p order, (render s).isError = false))
  ∧ (∀ s, (pollTrace h p order).getLast? = some s →
      (render s).isReady = true →
      (∃ hv, h = .ok hv) ∧ (∃ pv, p = .ok pv)) := by
  refine ⟨?_, ?_, ?_⟩
  · rw [pollTrace_head]
    rfl
  · intro hv pv hh hp
    subst hh
    subst hp
    refine ⟨?_, ?_⟩
    · rw [pollTrace_getLast]
      rfl
    · intro s hs
      simp [pollTrace, promiseAll] at hs
      rcases hs with rfl | rfl | rfl | rfl <;> rfl
  · intro s hlast hready
    rw [pollTrace_getLast] at hlast
    cases Option.some.inj hlast
    rcases h with eh | hv <;> rcases p with ep | pv <;> cases order <;>
      first
      | exact ⟨⟨_, rfl⟩, ⟨_, rfl⟩⟩
      | simp [promiseAll, render, errorState, initialState,
          ViewState.isReady] at hready

/-- Witness for C2: both calls succeed, and the cycle ends rendering the
Ready view with both payloads attached. -/
theorem aggregator_success_ready_witness :
    (pollTrace (.ok (Json.str "h")) (.ok (Json.str "p"))
        .healthFirst).getLast?.map render
      = some (.ready (some (Json.str "h")) (some (Json.str "p"))) :=
  ((aggregator_success_ready (.ok (Json.str "h")) (.ok (Json.str "p"))
    .healthFirst).2.1 (Json.str "h") (Json.str "p") rfl rfl).1

/-- Claim C3: whenever at least one of the two calls rejects, the poll
cycle ends rendering the Error view carrying the message of the
first-observed rejection (the reason `Promise.all` rejects with), and no
partial data is ever attached: every state of the cycle has both payload
hooks still null, even when the other call succeeded. -/
theorem aggregator_failure_error
    (h p : Except JsError Json) (order : ArrivalOrder)
    (hfail : (∃ e, h = .error e) ∨ (∃ e, p = .error e)) :
    (∃ e, firstRejection h p order = some e
      ∧ (pollTrace h p order).getLast?.map render
          = some (.errorView (JsError.message e)))
  ∧ (∀ s ∈ pollTrace h p order, s.health = none ∧ s.physics = none) := by
  rcases h with eh | hv <;> rcases p with ep | pv
  · refine ⟨⟨_, rfl, by rw [pollTrace_getLast]; rfl⟩, ?_⟩
    intro s hs
    simp [pollTrace, promiseAll] at hs
    rcases hs with rfl | rfl | rfl <;> exact ⟨rfl, rfl⟩
  · refine ⟨⟨_, rfl, by rw [pollTrace_getLast]; rfl⟩, ?_⟩
    intro s hs
    simp [pollTrace, promiseAll] at hs
    rcases hs with rfl | rfl | rfl <;> exact ⟨rfl, rfl⟩
  · refine ⟨⟨_, rfl, by rw [pollTrace_getLast]; rfl⟩, ?_⟩
    intro s hs
    simp [pollTrace, promiseAll] at hs
    rcases hs with rfl | rfl | rfl <;> exact ⟨rfl, rfl⟩
  · rcases hfail with ⟨e, he⟩ | ⟨e, he⟩ <;> exact nomatch he

/-- Witness for C3: the spec scenario — `health()` resolves while
`getPhysicsInfo()` rejects (and settles first); the cycle ends in the Error
view carrying the physics-info failure message, and the successful health
payload is dropped. -/
theorem aggregator_failure_error_witness :
    (pollTrace (.ok Json.null)
        (.error (.err "Failed to fetch physics info"))
        .physicsFirst).getLast?.map render
      = some (.errorView "Failed to fetch physics info") := by
  have hmain := aggregator_failure_error (.ok Json.null)
      (.error (.err "Failed to fetch physics info")) .physicsFirst
      (Or.inr ⟨.err "Failed to fetch physics info", rfl⟩)
  obtain ⟨⟨e, he, hr⟩, -⟩ := hmain
  have he2 : JsError.err "Failed to fetch physics info" = e :=
    Option.some.inj he
  cases he2
  exact hr

/-- Claim C6: along every poll cycle the rendered view is always exactly
one of Loading, Ready or Error; every state before the final one renders
Loading and the final state never does, so once Ready or Error is reached
it is terminal for the cycle and the view never returns to Loading.  The
trace is that of the single mount-time effect (empty dependency array), so
no re-poll or retry exists in this layer. -/
theorem aggregator_state_machine
    (h p : Except JsError Json) (order : ArrivalOrder) :
    (∀ s ∈ pollTrace h p order, exactlyOneView (render s))
  ∧ (∀ s ∈ (pollTrace h p order).dropLast, render s = .loading)
  ∧ (∀ s, (pollTrace h p order).getLast? = some s →
      (render s).isLoading = false) := by
  refine ⟨fun s _ => exactlyOneView_holds (render s), ?_, ?_⟩
  · rcases h with eh | hv <;> rcases p with ep | pv <;> cases order <;>
      (intro s hs
       simp [pollTrace, promiseAll, List.dropLast] at hs
       rcases hs with rfl | rfl | rfl <;> rfl)
  · rcases h with eh | hv <;> rcases p with ep | pv <;> cases order <;>
      (intro s hlast
       rw [pollTrace_getLast] at hlast
       cases Option.some.inj hlast
       rfl)

/-- Witness for C6: the initial state of a concrete cycle renders a view
satisfying the exactly-one invariant. -/
theorem aggregator_state_machine_witness :
    exactlyOneView (render initialState) :=
  (aggregator_state_machine (.ok Json.null) (.ok Json.null) .healthFirst).1
    initialState (by simp [pollTrace, promiseAll])

/-- Claim C8: the success-path merge is commutative — when both calls
resolve, the whole poll-cycle trajectory (hence the final Ready state with
both payloads) is independent of the order in which the two responses
arrive. -/
theorem aggregator_merge_commutative
    (hv pv : Json) (o1 o2 : ArrivalOrder) :
    pollTrace (.ok hv) (.ok pv) o1 = pollTrace (.ok hv) (.ok pv) o2 := by
  cases o1 <;> cases o2 <;> rfl
